import Mathlib

/-!
Verification development for `generate_gtest_md.py`, a single-file tool that
converts a GoogleTest XML report into a Markdown summary.

The script is embedded shallowly:
  * XML elements become the inductive `Elem` (tag, attributes, text, children).
  * Python strings become `List Char` (`PyStr`); Python's `int()` builtin is
    modelled by `pyInt` (whitespace stripping, optional sign, decimal digits;
    underscore digit separators of Python 3.6+ are not modelled, which is
    irrelevant for all properties considered here).
  * The fallible parts (attribute-to-int conversion, which can raise
    `ValueError`) return `Except Unit _`.
  * `main` becomes `runMain`, a function from a load outcome (file missing /
    XML parse error / parsed root element) and a configuration to an `Outcome`
    recording the exit code, the stderr line and the rendered Markdown lines.
-/

namespace GTestMd

/-- Python strings, modelled as lists of characters. -/
abbrev PyStr := List Char

/-- The whitespace characters stripped by Python's `str.strip()` (ASCII part). -/
def isPySpace (c : Char) : Bool :=
  c = ' ' || c = '\t' || c = '\n' || c = '\r' || c = '\x0b' || c = '\x0c'

/-- Python `s.strip()`: remove leading and trailing whitespace. -/
def pyStrip (s : PyStr) : PyStr :=
  ((s.dropWhile isPySpace).reverse.dropWhile isPySpace).reverse

/-- Accumulate the value of a run of decimal digits; `none` on a non-digit. -/
def digitsToNatCore : PyStr → Nat → Option Nat
  | [], acc => some acc
  | c :: rest, acc =>
      if c.isDigit then digitsToNatCore rest (acc * 10 + (c.toNat - ('0').toNat))
      else none

/-- Value of a nonempty all-digit string, `none` otherwise. -/
def digitsToNat (s : PyStr) : Option Nat :=
  match s with
  | [] => none
  | _ => digitsToNatCore s 0

/-- Model of Python's builtin `int(str)`: strip whitespace, optional sign,
then a nonempty run of decimal digits; anything else raises `ValueError`
(modelled as `.error ()`). -/
def pyInt (s : PyStr) : Except Unit Int :=
  match pyStrip s with
  | '+' :: rest =>
      match digitsToNat rest with
      | some n => .ok (Int.ofNat n)
      | none => .error ()
  | '-' :: rest =>
      match digitsToNat rest with
      | some n => .ok (-(Int.ofNat n))
      | none => .error ()
  | l =>
      match digitsToNat l with
      | some n => .ok (Int.ofNat n)
      | none => .error ()

/-- `int(suite.get(k, 0) or 0)` from the script: an absent attribute gives the
default `0`; a present empty string is falsy, so `or 0` turns it into `0`;
any other present value goes through `int()`, which may raise. -/
def parseCount (v : Option PyStr) : Except Unit Int :=
  match v with
  | none => .ok 0
  | some [] => .ok 0
  | some s => pyInt s

/-- Lines 102-103 of the script: if `truncate_message > 0` and the message is
longer, cut to that many characters and append `"..."`; otherwise keep it. -/
def truncateMsg (limit : Int) (m : PyStr) : PyStr :=
  if 0 < limit ∧ limit < (m.length : Int) then m.take limit.toNat ++ ("...").data
  else m

/-- `escape_md`: escape pipe characters for Markdown table cells. -/
def escape_md : PyStr → PyStr
  | [] => []
  | c :: rest => (if c = '|' then ['\\', '|'] else [c]) ++ escape_md rest

/-- Python `sep.join(items)`. -/
def joinSep (sep : PyStr) : List PyStr → PyStr
  | [] => []
  | [x] => x
  | x :: rest => x ++ sep ++ joinSep sep rest

/-- `" | ".join(...)` used for combined failure/error messages. -/
def joinPipe (items : List PyStr) : PyStr :=
  joinSep ((" | ").data) items

/-- Python `str(n)` on an int. -/
def intStr (n : Int) : PyStr := (toString n).data

/-- Status line of the script (lines 113-117): emoji and ASCII vocabularies.
Python truthiness on an int is "nonzero". -/
def statusLabel (noEmoji : Bool) (totalFail totalErr : Int) : String :=
  if noEmoji then
    if totalFail + totalErr = 0 then "ALL PASSED"
    else if totalFail ≠ 0 then "FAILURES"
    else if totalErr ≠ 0 then "ERRORS"
    else "ISSUES"
  else
    if totalFail + totalErr = 0 then "✅ All Passed"
    else if totalFail ≠ 0 then "❌ Failures"
    else if totalErr ≠ 0 then "⚠️ Errors"
    else "⚠️ Issues"

/-- An XML element: tag, attributes, text, children (ElementTree's view). -/
inductive Elem where
  | mk (tag : String) (attrs : List (String × PyStr)) (text : Option PyStr)
       (children : List Elem)

def Elem.tag : Elem → String
  | .mk t _ _ _ => t

def Elem.attrs : Elem → List (String × PyStr)
  | .mk _ a _ _ => a

def Elem.text : Elem → Option PyStr
  | .mk _ _ tx _ => tx

def Elem.children : Elem → List Elem
  | .mk _ _ _ ch => ch

/-- `el.get(k)`: the first attribute with key `k`, if any. -/
def Elem.get (e : Elem) (k : String) : Option PyStr :=
  (e.attrs.find? (fun kv => kv.1 == k)).map (fun kv => kv.2)

/-- `el.find(t)`: the first direct child with tag `t`, if any. -/
def Elem.findChild (e : Elem) (t : String) : Option Elem :=
  e.children.find? (fun c => c.tag == t)

/-- `el.findall(t)`: all direct children with tag `t`, in document order. -/
def findallDirect (t : String) (e : Elem) : List Elem :=
  e.children.filter (fun c => c.tag == t)

mutual

/-- `el.findall(".//t")`: all proper descendants with tag `t`, in document
(preorder) encounter order. -/
def findallRec (t : String) : Elem → List Elem
  | .mk _ _ _ ch => findallRecList t ch

def findallRecList (t : String) : List Elem → List Elem
  | [] => []
  | c :: rest => (if c.tag = t then [c] else []) ++ findallRec t c ++ findallRecList t rest

end

mutual

/-- All proper descendants of an element, in document (preorder) order. -/
def descendants : Elem → List Elem
  | .mk _ _ _ ch => descendantsList ch

def descendantsList : List Elem → List Elem
  | [] => []
  | c :: rest => c :: (descendants c ++ descendantsList rest)

end

/-- `load_suites` from the script: dispatch on the root tag. -/
def load_suites (root : Elem) : List Elem :=
  if root.tag = "testsuites" then findallDirect ("testsuite") root
  else if root.tag = "testsuite" then [root]
  else findallRec ("testsuite") root

/-- The per-suite data read in lines 73-78 of the script. -/
structure SuiteData where
  name : PyStr
  tests : Int
  failures : Int
  errors : Int
  skipped : Int
  time : PyStr

/-- Lines 73-78: read the suite attributes; the four count attributes go
through `parseCount` and can raise. -/
def parseSuite (e : Elem) : Except Unit SuiteData :=
  match parseCount (e.get ("tests")) with
  | .error u => .error u
  | .ok tests =>
    match parseCount (e.get ("failures")) with
    | .error u => .error u
    | .ok failures =>
      match parseCount (e.get ("errors")) with
      | .error u => .error u
      | .ok errors =>
        match parseCount (e.get ("skipped")) with
        | .error u => .error u
        | .ok skipped =>
          .ok { name := (e.get ("name")).getD [],
                tests := tests, failures := failures, errors := errors,
                skipped := skipped,
                time := (e.get ("time")).getD [] }

/-- One row of the per-suite table (line 86): the display name applies the
`name or "(unnamed)"` default, `passed` is derived without clamping. -/
structure Row where
  name : PyStr
  tests : Int
  passed : Int
  failures : Int
  errors : Int
  skipped : Int
  time : PyStr

def mkRow (sd : SuiteData) : Row :=
  { name := if sd.name = [] then ("(unnamed)").data else sd.name,
    tests := sd.tests,
    passed := sd.tests - sd.failures - sd.errors - sd.skipped,
    failures := sd.failures,
    errors := sd.errors,
    skipped := sd.skipped,
    time := sd.time }

/-- `f"{cname}.{tname}" if cname else tname` (line 91). -/
def caseFullName (c : Elem) : PyStr :=
  let cname := (c.get ("classname")).getD []
  let tname := (c.get ("name")).getD []
  if cname = [] then tname else cname ++ '.' :: tname

/-- `(marker.get("message", "") + " " + (marker.text or "")).strip()`
(lines 98 and 100). -/
def markerPart (el : Elem) : PyStr :=
  pyStrip (((el.get ("message")).getD []) ++ ' ' :: ((el.text).getD []))

/-- Lines 88-110: classify one `testcase` element. Returns the entries it
contributes to `failing_cases` and to `passed_cases`. The failure/error
check comes first, then the skipped check, then the passed branch. -/
def processCase (truncLimit : Int) (showPassed : Bool) (c : Elem) :
    List (PyStr × PyStr) × List PyStr :=
  match c.findChild ("failure"), c.findChild ("error"), c.findChild ("skipped") with
  | none, none, some _ => ([], [])
  | none, none, none => ([], if showPassed then [caseFullName c] else [])
  | fEl, eEl, _ =>
      let parts := (match fEl with | some f => [markerPart f] | none => []) ++
                   (match eEl with | some e => [markerPart e] | none => [])
      let message := truncateMsg truncLimit (joinPipe (parts.filter (fun p => !p.isEmpty)))
      ([(caseFullName c, message)], [])

/-- The aggregation state of `main`'s suite loop (lines 66-110). -/
structure Agg where
  totTests : Int
  totFail : Int
  totErr : Int
  totSkip : Int
  rows : List Row
  failing : List (PyStr × PyStr)
  passed : List PyStr

def Agg.start : Agg := ⟨0, 0, 0, 0, [], [], []⟩

/-- One iteration of the suite loop: parse the attributes (may raise), add the
table row, accumulate totals, and process the direct `testcase` children. -/
def aggStep (truncLimit : Int) (showPassed : Bool) (a : Agg) (e : Elem) :
    Except Unit Agg :=
  match parseSuite e with
  | .error u => .error u
  | .ok sd =>
    let caseOut := (findallDirect ("testcase") e).map (processCase truncLimit showPassed)
    .ok { totTests := a.totTests + sd.tests,
          totFail := a.totFail + sd.failures,
          totErr := a.totErr + sd.errors,
          totSkip := a.totSkip + sd.skipped,
          rows := a.rows ++ [mkRow sd],
          failing := a.failing ++ (caseOut.map Prod.fst).flatten,
          passed := a.passed ++ (caseOut.map Prod.snd).flatten }

def aggregateFrom (truncLimit : Int) (showPassed : Bool) : Agg → List Elem → Except Unit Agg
  | a, [] => .ok a
  | a, e :: rest =>
      match aggStep truncLimit showPassed a e with
      | .error u => .error u
      | .ok a2 => aggregateFrom truncLimit showPassed a2 rest

/-- The whole suite loop over the loaded suites. -/
def aggregate (truncLimit : Int) (showPassed : Bool) (es : List Elem) : Except Unit Agg :=
  aggregateFrom truncLimit showPassed Agg.start es

/-- `passed_total = total_tests - total_fail - total_err - total_skip` (line 112). -/
def passedTotal (a : Agg) : Int :=
  a.totTests - a.totFail - a.totErr - a.totSkip

/-- The seven cells of a table row, stringified as in line 86/126. -/
def rowCells (r : Row) : List PyStr :=
  [r.name, intStr r.tests, intStr r.passed, intStr r.failures, intStr r.errors,
   intStr r.skipped, r.time]

/-- `"| " + " | ".join(escape_md(str(x)) for x in r) + " |"` (line 126). -/
def tableLine (cells : List PyStr) : PyStr :=
  ("| ").data ++ joinSep ((" | ").data) (cells.map escape_md) ++ (" |").data

/-- `f"- **{escape_md(name)}**: {escape_md(msg)}"` (line 144). -/
def bulletLine (entry : PyStr × PyStr) : PyStr :=
  ("- **").data ++ escape_md entry.1 ++ ("**: ").data ++ escape_md entry.2

/-- `f"\n... ({hidden} more not shown) ..."` (line 147): a single md line that
begins with a newline character. -/
def noteLine (hidden : Int) : PyStr :=
  '\n' :: (("... (").data ++ intStr hidden ++ (" more not shown) ...").data)

/-- Lines 139-147: the "Failed / Error TestCases" section. Present only when
there are failing cases and `max_fail != 0`; shows all of them when
`max_fail < 0`, else the first `max_fail`; notes the hidden count if any. -/
def failSection (maxFail : Int) (failing : List (PyStr × PyStr)) : List PyStr :=
  if failing = [] ∨ maxFail = 0 then []
  else
    let shown := if maxFail < 0 then failing else failing.take maxFail.toNat
    let hidden : Int := (failing.length : Int) - (shown.length : Int)
    [[], ("## Failed / Error TestCases").data] ++ shown.map bulletLine ++
      (if 0 < hidden then [noteLine hidden] else [])

/-- Lines 149-154: the collapsible passed-cases section. -/
def passedSection (passed : List PyStr) : List PyStr :=
  if passed = [] then []
  else
    [[], ("<details><summary>Passed TestCases (").data ++
         (toString passed.length).data ++ (")</summary>").data] ++
    passed.map (fun n => ("- ").data ++ escape_md n) ++
    [("</details>").data]

/-- CLI options relevant to the rendered document. -/
structure Config where
  maxFail : Int
  truncLimit : Int
  showPassed : Bool
  noEmoji : Bool

/-- Lines 119-154: all Markdown lines of the rendered document, in order. -/
def render (cfg : Config) (a : Agg) : List PyStr :=
  [("# GTest Summary").data,
   ("Status: **").data ++ (statusLabel cfg.noEmoji a.totFail a.totErr).data ++ ("**").data,
   [],
   ("| TestSuite | Total | Passed | Failed | Errors | Skipped | Time(s) |").data,
   ("|-----------|-------|--------|--------|--------|---------|---------|").data] ++
  a.rows.map (fun r => tableLine (rowCells r)) ++
  [[], ("## Totals").data, ("| Metric | Value |").data, ("|--------|-------|").data,
   ("| Total | ").data ++ intStr a.totTests ++ (" |").data,
   ("| Passed | ").data ++ intStr (passedTotal a) ++ (" |").data,
   ("| Failed | ").data ++ intStr a.totFail ++ (" |").data,
   ("| Errors | ").data ++ intStr a.totErr ++ (" |").data,
   ("| Skipped | ").data ++ intStr a.totSkip ++ (" |").data] ++
  failSection cfg.maxFail a.failing ++
  passedSection a.passed

/-- The three ways the load phase can end (lines 52-63). -/
inductive LoadResult where
  | missing
  | unparsable
  | parsed (root : Elem)

/-- How a run of `main` ends: `sys.exit` with a stderr line and no Markdown;
an uncaught exception (e.g. `ValueError` from `int()`) with no Markdown;
or normal completion (exit code 0) with the rendered Markdown lines. -/
inductive Outcome where
  | exit (exitCode : Nat) (errLine : String)
  | crashed
  | success (mdLines : List PyStr)

/-- The exit status of the process for each outcome; an uncaught Python
exception terminates the process with status 1 via the traceback handler. -/
def exitCodeOf : Outcome → Nat
  | .exit c _ => c
  | .crashed => 1
  | .success _ => 0

/-- The rendered Markdown, when any was produced. -/
def mdOutput : Outcome → Option (List PyStr)
  | .success md => some md
  | _ => none

/-- `main` (lines 50-198), as a function of the load outcome: missing file →
exit 1; XML parse error → exit 2; otherwise aggregate the loaded suites
(which can crash on a malformed count) and render. -/
def runMain (cfg : Config) (path : String) (input : LoadResult) : Outcome :=
  match input with
  | .missing => .exit 1 ("[ERROR] XML file not found: " ++ path)
  | .unparsable => .exit 2 ("[ERROR] Failed to parse XML")
  | .parsed root =>
      match aggregate cfg.truncLimit cfg.showPassed (load_suites root) with
      | .error _ => .crashed
      | .ok a => .success (render cfg a)

/-! ## Theorems -/

/-- C3: for non-negative global failed/errored counts, the status label is the
success label when both are zero; otherwise the failures label when
failed > 0; otherwise the errors label when errored > 0; otherwise the
generic issues label (a branch unreachable for non-negative counts, hence
stated as the defensive default) — in both the emoji and the plain-ASCII
vocabularies. -/
theorem C3_status_label (b : Bool) (f e : Int) (hf : 0 ≤ f) (he : 0 ≤ e) :
    (f = 0 ∧ e = 0 → statusLabel b f e = (if b then "ALL PASSED" else "✅ All Passed")) ∧
    (0 < f → statusLabel b f e = (if b then "FAILURES" else "❌ Failures")) ∧
    (f = 0 → 0 < e → statusLabel b f e = (if b then "ERRORS" else "⚠️ Errors")) ∧
    (¬(f = 0 ∧ e = 0) → ¬0 < f → ¬0 < e →
      statusLabel b f e = (if b then "ISSUES" else "⚠️ Issues")) := by
  refine ⟨?_, ?_, ?_, ?_⟩
  · rintro ⟨rfl, rfl⟩
    cases b <;> rfl
  · intro hpos
    have h1 : ¬(f + e = 0) := by omega
    have h2 : f ≠ 0 := by omega
    cases b <;> simp [statusLabel, h1, h2]
  · rintro rfl hepos
    have h1 : ¬((0 : Int) + e = 0) := by omega
    have h2 : e ≠ 0 := by omega
    cases b <;> simp [statusLabel, h1, h2]
  · intro h1 _ _
    exact absurd ⟨by omega, by omega⟩ h1

/-- Witness for C3 at `b = true`, `f = 1`, `e = 0`. -/
theorem C3_status_label_witness : statusLabel true 1 0 = "FAILURES" := by
  have h := (C3_status_label true 1 0 (by decide) (by decide)).2.1 (by decide)
  simpa using h

/-- C4: with truncation length L > 0 and a message longer than L, the stored
message is exactly the first L characters followed by `"..."` (so its length
is L + 3); with L ≤ 0, or a message of length at most L, the message is kept
unmodified. -/
theorem C4_truncation (limit : Int) (m : PyStr) :
    (0 < limit → limit < (m.length : Int) →
      truncateMsg limit m = m.take limit.toNat ++ ("...").data ∧
      ((truncateMsg limit m).length : Int) = limit + 3) ∧
    (limit ≤ 0 → truncateMsg limit m = m) ∧
    ((m.length : Int) ≤ limit → truncateMsg limit m = m) := by
  refine ⟨?_, ?_, ?_⟩
  · intro h1 h2
    have hc : 0 < limit ∧ limit < (m.length : Int) := ⟨h1, h2⟩
    have he : truncateMsg limit m = m.take limit.toNat ++ ("...").data := by
      unfold truncateMsg
      rw [if_pos hc]
    refine ⟨he, ?_⟩
    rw [he, List.length_append, List.length_take]
    have hle : limit.toNat ≤ m.length := by omega
    rw [Nat.min_eq_left hle]
    have h3 : (("...").data).length = 3 := rfl
    rw [h3]
    omega
  · intro h1
    unfold truncateMsg
    rw [if_neg (by omega : ¬(0 < limit ∧ limit < (m.length : Int)))]
  · intro h1
    unfold truncateMsg
    rw [if_neg (by omega : ¬(0 < limit ∧ limit < (m.length : Int)))]

/-- Witness for C4 at L = 2, message "abcd" (length 4). -/
theorem C4_truncation_witness :
    truncateMsg 2 (("abcd").data) = (("abcd").data).take 2 ++ ("...").data :=
  ((C4_truncation 2 (("abcd").data)).1 (by decide) (by decide)).1

/-- The four declared-count attribute keys of a testsuite element. -/
def countKeys : List String := ["tests", "failures", "errors", "skipped"]

/-- If each count attribute is absent or present with an empty value, the
suite parses with all counts defaulted to 0. -/
theorem parseSuite_default_counts (e : Elem)
    (h : ∀ k ∈ countKeys, e.get k = none ∨ e.get k = some []) :
    parseSuite e = .ok { name := (e.get ("name")).getD [], tests := 0, failures := 0,
                         errors := 0, skipped := 0, time := (e.get ("time")).getD [] } := by
  have hc : ∀ k ∈ countKeys, parseCount (e.get k) = .ok 0 := by
    intro k hk
    rcases h k hk with h1 | h1 <;> rw [h1] <;> rfl
  have ht := hc ("tests") (by simp [countKeys])
  have hf := hc ("failures") (by simp [countKeys])
  have he := hc ("errors") (by simp [countKeys])
  have hs := hc ("skipped") (by simp [countKeys])
  unfold parseSuite
  rw [ht, hf, he, hs]

/-- If every suite element parses, the aggregation loop completes. -/
theorem aggregateFrom_ok (truncLimit : Int) (showPassed : Bool) :
    ∀ (es : List Elem) (a : Agg), (∀ e ∈ es, ∃ sd, parseSuite e = .ok sd) →
      ∃ a2, aggregateFrom truncLimit showPassed a es = .ok a2 := by
  intro es
  induction es with
  | nil => exact fun a _ => ⟨a, rfl⟩
  | cons e rest ih =>
    intro a h
    obtain ⟨sd, hsd⟩ := h e (List.mem_cons_self e rest)
    have hstep : ∃ astep, aggStep truncLimit showPassed a e = .ok astep := by
      unfold aggStep
      rw [hsd]
      exact ⟨_, rfl⟩
    obtain ⟨astep, hstep⟩ := hstep
    obtain ⟨a2, h2⟩ := ih astep (fun x hx => h x (List.mem_cons_of_mem e hx))
    refine ⟨a2, ?_⟩
    unfold aggregateFrom
    rw [hstep]
    exact h2

/-- The concrete counterexample document for C1: it parses structurally, and
its single testsuite carries `tests="abc"` — present but not an integer. -/
def badCountSuite : Elem := .mk ("testsuite") [(("tests"), ("abc").data)] none []

def badCountRoot : Elem := .mk ("testsuites") [] none [badCountSuite]

/-- C1 counterexample: on a structurally parsed document whose Group has
`tests="abc"` (present but not parseable as an integer), the program does not
treat the count as 0 — `int("abc")` raises an uncaught `ValueError`, the run
crashes and no rendered output is produced, contradicting the claim. -/
theorem C1_counterexample :
    runMain ⟨50, 300, false, false⟩ ("report.xml") (.parsed badCountRoot) = .crashed ∧
    mdOutput (runMain ⟨50, 300, false, false⟩ ("report.xml") (.parsed badCountRoot)) = none :=
  ⟨rfl, rfl⟩

/-- C1 amended: a count attribute is treated as 0 only when it is absent or
present with an empty value; in that case every suite parses with all counts
zero and the rendered output is still produced. (A present, non-empty,
non-integer value instead raises an uncaught error: see the counterexample.) -/
theorem C1_amended_defaulting (cfg : Config) (p : String) (root : Elem)
    (h : ∀ e ∈ load_suites root, ∀ k ∈ countKeys, e.get k = none ∨ e.get k = some []) :
    (∀ e ∈ load_suites root,
      parseSuite e = .ok { name := (e.get ("name")).getD [], tests := 0, failures := 0,
                           errors := 0, skipped := 0, time := (e.get ("time")).getD [] }) ∧
    ∃ a, runMain cfg p (.parsed root) = .success (render cfg a) := by
  refine ⟨fun e he => parseSuite_default_counts e (h e he), ?_⟩
  obtain ⟨a, ha⟩ := aggregateFrom_ok cfg.truncLimit cfg.showPassed (load_suites root)
    Agg.start (fun e he => ⟨_, parseSuite_default_counts e (h e he)⟩)
  refine ⟨a, ?_⟩
  simp [runMain, aggregate, ha]

/-- The concrete document for the C1 witness: one suite whose `tests`
attribute is present but empty, the other counts absent. -/
def emptyCountSuite : Elem :=
  .mk ("testsuite") [(("name"), ("S").data), (("tests"), [])] none []

def emptyCountRoot : Elem := .mk ("testsuites") [] none [emptyCountSuite]

/-- Witness for the amended C1 on a concrete document. -/
theorem C1_amended_defaulting_witness :
    (∀ e ∈ load_suites emptyCountRoot,
      parseSuite e = .ok { name := (e.get ("name")).getD [], tests := 0, failures := 0,
                           errors := 0, skipped := 0, time := (e.get ("time")).getD [] }) ∧
    ∃ a, runMain ⟨50, 300, false, true⟩ ("report.xml") (.parsed emptyCountRoot) =
      .success (render ⟨50, 300, false, true⟩ a) :=
  C1_amended_defaulting ⟨50, 300, false, true⟩ ("report.xml") emptyCountRoot (by decide)

/-- C2: the process exits 0 when the run completes (and then the Markdown is
produced); exit code 1 with a descriptive stderr line and no Markdown when
the input path does not exist; exit code 2 with a stderr line and no Markdown
when the file exists but is not well-formed XML; and 1 and 2 are distinct
non-zero codes. -/
theorem C2_exit_codes (cfg : Config) (p : String) (root : Elem) (a : Agg)
    (h : aggregate cfg.truncLimit cfg.showPassed (load_suites root) = .ok a) :
    runMain cfg p .missing = .exit 1 ("[ERROR] XML file not found: " ++ p) ∧
    exitCodeOf (runMain cfg p .missing) = 1 ∧
    mdOutput (runMain cfg p .missing) = none ∧
    runMain cfg p .unparsable = .exit 2 ("[ERROR] Failed to parse XML") ∧
    exitCodeOf (runMain cfg p .unparsable) = 2 ∧
    mdOutput (runMain cfg p .unparsable) = none ∧
    runMain cfg p (.parsed root) = .success (render cfg a) ∧
    exitCodeOf (runMain cfg p (.parsed root)) = 0 ∧
    mdOutput (runMain cfg p (.parsed root)) = some (render cfg a) ∧
    (1 : Nat) ≠ 0 ∧ (2 : Nat) ≠ 0 ∧ (1 : Nat) ≠ 2 := by
  have hrun : runMain cfg p (.parsed root) = .success (render cfg a) := by
    simp [runMain, h]
  refine ⟨rfl, rfl, rfl, rfl, rfl, rfl, hrun, ?_, ?_, by decide, by decide, by decide⟩
  · rw [hrun]; rfl
  · rw [hrun]; rfl

/-- The empty document used by the C2 witness. -/
def c2Root : Elem := .mk ("testsuites") [] none []

/-- Witness for C2 on a concrete empty report. -/
theorem C2_exit_codes_witness :
    exitCodeOf (runMain ⟨50, 300, false, false⟩ ("report.xml") (.parsed c2Root)) = 0 :=
  (C2_exit_codes ⟨50, 300, false, false⟩ ("report.xml") c2Root Agg.start
    rfl).2.2.2.2.2.2.2.1

/-- C5: with K > 0 failing cases and configured max-shown S: if 0 < S < K,
exactly S entries are listed (the first S), followed by a note stating K − S
more were omitted; if S < 0, all K entries are listed and no note; if S = 0,
the whole "Failed / Error TestCases" section is omitted. -/
theorem C5_display_limit (maxFail : Int) (failing : List (PyStr × PyStr))
    (hne : failing ≠ []) :
    (0 < maxFail → maxFail < (failing.length : Int) →
      failSection maxFail failing =
        [[], ("## Failed / Error TestCases").data] ++
          (failing.take maxFail.toNat).map bulletLine ++
          [noteLine ((failing.length : Int) - maxFail)] ∧
      ((failing.take maxFail.toNat).length : Int) = maxFail) ∧
    (maxFail < 0 →
      failSection maxFail failing =
        [[], ("## Failed / Error TestCases").data] ++ failing.map bulletLine) ∧
    (maxFail = 0 → failSection maxFail failing = []) := by
  refine ⟨?_, ?_, ?_⟩
  · intro h1 h2
    have hcond : ¬(failing = [] ∨ maxFail = 0) := by
      push_neg
      exact ⟨hne, by omega⟩
    have hlen : (failing.take maxFail.toNat).length = maxFail.toNat := by
      rw [List.length_take]
      omega
    have hcast : ((maxFail.toNat : Int)) = maxFail := by omega
    constructor
    · simp only [failSection, if_neg hcond, if_neg (by omega : ¬maxFail < 0)]
      rw [hlen, hcast, if_pos (by omega : (0 : Int) < (failing.length : Int) - maxFail)]
    · rw [hlen]
      exact hcast
  · intro h1
    have hcond : ¬(failing = [] ∨ maxFail = 0) := by
      push_neg
      exact ⟨hne, by omega⟩
    simp only [failSection, if_neg hcond, if_pos h1]
    rw [if_neg (by omega : ¬(0 : Int) < (failing.length : Int) - (failing.length : Int))]
    simp
  · intro h1
    unfold failSection
    rw [if_pos (Or.inr h1)]

/-- The two-entry failing list used by the C5 witness. -/
def c5Failing : List (PyStr × PyStr) := [(("a").data, []), (("b").data, [])]

/-- Witness for C5 at S = 1, K = 2. -/
theorem C5_display_limit_witness :
    failSection 1 c5Failing =
      [[], ("## Failed / Error TestCases").data] ++
        (c5Failing.take (1 : Int).toNat).map bulletLine ++
        [noteLine ((c5Failing.length : Int) - 1)] :=
  (((C5_display_limit 1 c5Failing (by decide)).1 (by decide) (by decide))).1

/-- C6: a case carrying both a failure and an error marker contributes exactly
one failing entry, whose (possibly truncated) message is the `" | "` join of
the failure part and the error part — each part being the marker's message
attribute, a space, and its body text, stripped — with empty parts dropped
from the join; and when both parts are nonempty the join is literally
`failure-part ++ " | " ++ error-part`. -/
theorem C6_both_markers (truncLimit : Int) (showPassed : Bool) (c f e : Elem)
    (hf : c.findChild ("failure") = some f) (he : c.findChild ("error") = some e) :
    processCase truncLimit showPassed c =
      ([(caseFullName c,
         truncateMsg truncLimit
           (joinPipe (([markerPart f, markerPart e]).filter (fun p => !p.isEmpty))))], []) ∧
    (markerPart f ≠ [] → markerPart e ≠ [] →
      joinPipe (([markerPart f, markerPart e]).filter (fun p => !p.isEmpty)) =
        markerPart f ++ (" | ").data ++ markerPart e) := by
  constructor
  · cases hs : c.findChild ("skipped") <;> simp [processCase, hf, he, hs]
  · intro h1 h2
    have h1' : (markerPart f).isEmpty = false := by
      simp [List.isEmpty_iff, h1]
    have h2' : (markerPart e).isEmpty = false := by
      simp [List.isEmpty_iff, h2]
    simp [joinPipe, joinSep, List.filter, h1', h2']

/-- The concrete double-marker testcase for the C6 witness. -/
def c6FailureMarker : Elem :=
  .mk ("failure") [(("message"), ("boom").data)] (some ((" body ").data)) []

def c6ErrorMarker : Elem := .mk ("error") [] (some (("oops").data)) []

def c6Case : Elem :=
  .mk ("testcase") [(("name"), ("t1").data)] none [c6FailureMarker, c6ErrorMarker]

/-- Witness for C6 on a concrete case with both markers. -/
theorem C6_both_markers_witness :
    processCase 300 false c6Case =
      ([(caseFullName c6Case,
         truncateMsg 300
           (joinPipe (([markerPart c6FailureMarker, markerPart c6ErrorMarker]).filter
             (fun p => !p.isEmpty))))], []) :=
  (C6_both_markers 300 false c6Case c6FailureMarker c6ErrorMarker rfl rfl).1

/-- C9: a case carrying a skipped marker together with a failure or error
marker is classified as failing — it contributes exactly one failing entry
and never a passed entry; the failure/error check precedes the skipped
check. -/
theorem C9_fail_precedence (truncLimit : Int) (showPassed : Bool) (c : Elem)
    (hs : (c.findChild ("skipped")).isSome)
    (hfe : (c.findChild ("failure")).isSome ∨ (c.findChild ("error")).isSome) :
    (processCase truncLimit showPassed c).1.length = 1 ∧
    (processCase truncLimit showPassed c).2 = [] := by
  rcases hsk : c.findChild ("skipped") with _ | sk
  · rw [hsk] at hs
    simp at hs
  · rcases hf : c.findChild ("failure") with _ | f
    · rcases he : c.findChild ("error") with _ | e
      · rw [hf, he] at hfe
        simp at hfe
      · simp [processCase, hf, he, hsk]
    · rcases he : c.findChild ("error") with _ | e
      · simp [processCase, hf, he, hsk]
      · simp [processCase, hf, he, hsk]

/-- The concrete skipped-and-failed testcase for the C9 witness. -/
def c9Case : Elem :=
  .mk ("testcase") [(("name"), ("t2").data)] none
    [.mk ("skipped") [] none [], .mk ("failure") [(("message"), ("x").data)] none []]

/-- Witness for C9 on a concrete case with both a skipped and a failure
marker (passed-case listing enabled, so the empty passed list is informative). -/
theorem C9_fail_precedence_witness :
    (processCase 300 true c9Case).1.length = 1 ∧ (processCase 300 true c9Case).2 = [] :=
  C9_fail_precedence 300 true c9Case (by decide) (.inl (by decide))

/-- A successful `parseSuite` always stores the raw `name` attribute
(defaulted to the empty string when absent). -/
theorem parseSuite_name_of_ok (e : Elem) (sd : SuiteData) (h : parseSuite e = .ok sd) :
    sd.name = (e.get ("name")).getD [] := by
  unfold parseSuite at h
  cases h1 : parseCount (e.get ("tests")) <;> rw [h1] at h
  · exact Except.noConfusion h
  · cases h2 : parseCount (e.get ("failures")) <;> rw [h2] at h
    · exact Except.noConfusion h
    · cases h3 : parseCount (e.get ("errors")) <;> rw [h3] at h
      · exact Except.noConfusion h
      · cases h4 : parseCount (e.get ("skipped")) <;> rw [h4] at h
        · exact Except.noConfusion h
        · cases h
          rfl

/-- C10: a Group whose `name` attribute is present but empty — not only
absent — gets the `"(unnamed)"` placeholder in the TestSuite column of its
table row. -/
theorem C10_empty_name (e : Elem) (sd : SuiteData)
    (hname : e.get ("name") = some [])
    (hp : parseSuite e = .ok sd) :
    sd.name = [] ∧ (mkRow sd).name = ("(unnamed)").data ∧
    (rowCells (mkRow sd)).head? = some (("(unnamed)").data) := by
  have hn : sd.name = [] := by
    rw [parseSuite_name_of_ok e sd hp, hname]
    rfl
  refine ⟨hn, ?_, ?_⟩
  · simp [mkRow, hn]
  · simp [rowCells, mkRow, hn]

/-- The concrete empty-name suite for the C10 witness. -/
def c10Suite : Elem := .mk ("testsuite") [(("name"), [])] none []

/-- Witness for C10 on a concrete suite with `name=""`. -/
theorem C10_empty_name_witness :
    (SuiteData.mk [] 0 0 0 0 []).name = [] ∧
    (mkRow (SuiteData.mk [] 0 0 0 0 [])).name = ("(unnamed)").data ∧
    (rowCells (mkRow (SuiteData.mk [] 0 0 0 0 []))).head? = some (("(unnamed)").data) :=
  C10_empty_name c10Suite (SuiteData.mk [] 0 0 0 0 []) rfl rfl

mutual

/-- The recursive `.//testsuite`-style search returns exactly the descendants
with the requested tag, in document order. -/
theorem findallRec_eq_filter (t : String) (e : Elem) :
    findallRec t e = (descendants e).filter (fun c => c.tag == t) := by
  cases e with
  | mk tg a tx ch =>
    rw [findallRec, descendants]
    exact findallRecList_eq_filter t ch

theorem findallRecList_eq_filter (t : String) (ch : List Elem) :
    findallRecList t ch = (descendantsList ch).filter (fun c => c.tag == t) := by
  cases ch with
  | nil => rfl
  | cons c rest =>
    rw [findallRecList, descendantsList]
    by_cases h : c.tag = t
    · simp [List.filter_cons, List.filter_append, h,
        findallRec_eq_filter t c, findallRecList_eq_filter t rest]
    · simp [List.filter_cons, List.filter_append, h,
        findallRec_eq_filter t c, findallRecList_eq_filter t rest]

end

/-- C7: the loader accepts exactly three root shapes — a `testsuites` root
(the sequence is its direct `testsuite` children, in order), a root that is
itself a `testsuite` (the sequence is that single root), and any other root
(the sequence is every descendant `testsuite` at any depth, in document
encounter order). -/
theorem C7_root_shapes (root : Elem) :
    (root.tag = "testsuites" →
      load_suites root = root.children.filter (fun c => c.tag == "testsuite")) ∧
    (root.tag = "testsuite" → load_suites root = [root]) ∧
    (root.tag ≠ "testsuites" → root.tag ≠ "testsuite" →
      load_suites root = (descendants root).filter (fun c => c.tag == "testsuite")) := by
  refine ⟨?_, ?_, ?_⟩
  · intro h
    simp [load_suites, h, findallDirect]
  · intro h
    have h2 : ¬root.tag = "testsuites" := by
      rw [h]
      decide
    simp [load_suites, h, h2]
  · intro h1 h2
    simp [load_suites, h1, h2, findallRec_eq_filter]

/-- A nested document with an unrecognized root tag, for the C7 witness:
the two `testsuite` elements sit at different depths. -/
def c7Inner : Elem := .mk ("testsuite") [(("name"), ("deep").data)] none []

def c7Wrapper : Elem := .mk ("wrapper") [] none [c7Inner]

def c7Root : Elem :=
  .mk ("report") [] none [.mk ("testsuite") [(("name"), ("top").data)] none [], c7Wrapper]

/-- Witness for C7 on a concrete unrecognized root. -/
theorem C7_root_shapes_witness :
    load_suites c7Root = (descendants c7Root).filter (fun c => c.tag == "testsuite") :=
  (C7_root_shapes c7Root).2.2 (by decide) (by decide)

/-- The row/total bookkeeping invariant maintained by the suite loop. -/
def rowInv (a : Agg) : Prop :=
  a.totTests = (a.rows.map Row.tests).sum ∧
  a.totFail = (a.rows.map Row.failures).sum ∧
  a.totErr = (a.rows.map Row.errors).sum ∧
  a.totSkip = (a.rows.map Row.skipped).sum ∧
  ∀ r ∈ a.rows, r.passed = r.tests - r.failures - r.errors - r.skipped

theorem rowInv_start : rowInv Agg.start := by
  simp [rowInv, Agg.start]

theorem rowInv_step (truncLimit : Int) (showPassed : Bool) (a a2 : Agg) (e : Elem)
    (ha : rowInv a) (h : aggStep truncLimit showPassed a e = .ok a2) : rowInv a2 := by
  unfold aggStep at h
  cases hp : parseSuite e <;> rw [hp] at h
  · exact Except.noConfusion h
  · cases h
    obtain ⟨h1, h2, h3, h4, h5⟩ := ha
    refine ⟨?_, ?_, ?_, ?_, ?_⟩
    · simp [List.map_append, List.sum_append, h1, mkRow]
    · simp [List.map_append, List.sum_append, h2, mkRow]
    · simp [List.map_append, List.sum_append, h3, mkRow]
    · simp [List.map_append, List.sum_append, h4, mkRow]
    · intro r hr
      rcases List.mem_append.mp hr with hr1 | hr1
      · exact h5 r hr1
      · rw [List.mem_singleton.mp hr1]
        simp [mkRow]

theorem rowInv_fold (truncLimit : Int) (showPassed : Bool) :
    ∀ (es : List Elem) (a a2 : Agg), rowInv a →
      aggregateFrom truncLimit showPassed a es = .ok a2 → rowInv a2 := by
  intro es
  induction es with
  | nil =>
    intro a a2 ha h
    cases h
    exact ha
  | cons e rest ih =>
    intro a a2 ha h
    unfold aggregateFrom at h
    cases hs : aggStep truncLimit showPassed a e <;> rw [hs] at h
    · exact Except.noConfusion h
    · exact ih _ a2 (rowInv_step truncLimit showPassed a _ e ha hs) h

/-- C8: in the aggregated result, every per-Group row's passed count is that
Group's declared total minus failed minus errored minus skipped, the global
counters are the per-Group sums, and the global passed count is the summed
total minus the summed failed, errored and skipped — all over `Int`, so a
negative value is kept as-is (never clamped at zero). -/
theorem C8_passed_counts (truncLimit : Int) (showPassed : Bool) (es : List Elem) (a : Agg)
    (h : aggregate truncLimit showPassed es = .ok a) :
    (∀ r ∈ a.rows, r.passed = r.tests - r.failures - r.errors - r.skipped) ∧
    a.totTests = (a.rows.map Row.tests).sum ∧
    a.totFail = (a.rows.map Row.failures).sum ∧
    a.totErr = (a.rows.map Row.errors).sum ∧
    a.totSkip = (a.rows.map Row.skipped).sum ∧
    passedTotal a = (a.rows.map Row.tests).sum - (a.rows.map Row.failures).sum -
      (a.rows.map Row.errors).sum - (a.rows.map Row.skipped).sum := by
  have hinv : rowInv a := rowInv_fold truncLimit showPassed es Agg.start a rowInv_start h
  obtain ⟨h1, h2, h3, h4, h5⟩ := hinv
  refine ⟨h5, h1, h2, h3, h4, ?_⟩
  rw [passedTotal, h1, h2, h3, h4]

/-- A suite with inconsistent declared counts (`tests="1"`, `failures="2"`),
for the C8 witness: its derived passed count is −1 and stays −1. -/
def c8Suite : Elem :=
  .mk ("testsuite")
    [(("name"), ("S").data), (("tests"), ("1").data), (("failures"), ("2").data)] none []

/-- Witness for C8 on the inconsistent suite: the global passed count is the
(negative, unclamped) sum formula. -/
theorem C8_passed_counts_witness :
    passedTotal (Agg.mk 1 2 0 0 [Row.mk (("S").data) 1 (-1) 2 0 0 []] [] []) =
      ((Agg.mk 1 2 0 0 [Row.mk (("S").data) 1 (-1) 2 0 0 []] [] []).rows.map Row.tests).sum -
      ((Agg.mk 1 2 0 0 [Row.mk (("S").data) 1 (-1) 2 0 0 []] [] []).rows.map Row.failures).sum -
      ((Agg.mk 1 2 0 0 [Row.mk (("S").data) 1 (-1) 2 0 0 []] [] []).rows.map Row.errors).sum -
      ((Agg.mk 1 2 0 0 [Row.mk (("S").data) 1 (-1) 2 0 0 []] [] []).rows.map Row.skipped).sum :=
  (C8_passed_counts 300 false [c8Suite]
    (Agg.mk 1 2 0 0 [Row.mk (("S").data) 1 (-1) 2 0 0 []] [] []) (by rfl)).2.2.2.2.2

end GTestMd
